import Mathlib

/-!
# Verification of the movico route-registration engine and dev-server lifecycle

Shallow embedding of the repository's core components:

* `VDS` (src/core/VDS.ts) — the singleton async Vite dev-server lifecycle:
  `getVDS`, creation settlement, `shutdownVDS`.
* `Controller.register` (src/core/Controller.ts) — descriptor registration
  with environment scoping and the error-wrapping of endpoints.
* `CoreController.routesInternal` (src/core/CoreController.ts) — the two
  serving descriptors.
* `Service` (src/core/Service.ts) — the property store.
* `AppRouter` (src/unnamed/part_000) — initialization phases and the
  shutdown handler, together with the signal hooks the `VDS` constructor
  installs.

JavaScript's scheduling model is single-threaded with interleaving only at
`await` points, so each synchronous section of a method runs atomically; the
embedding models each such section as one step on an explicit state.
-/

namespace Movico

/-! ## VDS state (src/core/VDS.ts)

The class holds two nullable fields, `instanceVDS : ViteDevServer | null`
and `promiseVDS : Promise<ViteDevServer> | null`.  Servers and promises are
identified by natural numbers; `createCalls` counts invocations of the
underlying `createServer`, and `nextPromiseId` is a fresh-name supply for
promises. -/

structure VDSState where
  instanceVDS : Option Nat
  promiseVDS : Option Nat
  createCalls : Nat
  nextPromiseId : Nat
  deriving Repr, DecidableEq

/-- The freshly constructed `VDS` object: both fields `null`. -/
def vdsInit : VDSState :=
  { instanceVDS := none, promiseVDS := none, createCalls := 0, nextPromiseId := 0 }

/-- What one caller of `getVDS` gets back from the synchronous section of the
method body: the live instance, an already-pending creation promise, or a
newly started creation promise. -/
inductive GetVDSResult where
  | readyInstance (server : Nat)
  | awaitPromise (pid : Nat)
  | newPromise (pid : Nat)
  deriving Repr, DecidableEq

/-- The synchronous section of `VDS.getVDS` (src/core/VDS.ts):

    if (this.instanceVDS) return this.instanceVDS;
    if (this.promiseVDS) return this.promiseVDS;
    this.promiseVDS = createServer(this.configVDS).then(...).catch(...);
    return this.promiseVDS;

There is no `await` before the assignment to `promiseVDS`, so the whole
section is atomic.  Starting a creation bumps `createCalls` and allocates a
fresh promise id. -/
def getVDSStep (s : VDSState) : VDSState × GetVDSResult :=
  match s.instanceVDS with
  | some server => (s, .readyInstance server)
  | none =>
    match s.promiseVDS with
    | some pid => (s, .awaitPromise pid)
    | none =>
      let pid := s.nextPromiseId
      ({ s with promiseVDS := some pid
                createCalls := s.createCalls + 1
                nextPromiseId := pid + 1 },
       .newPromise pid)

/-- Settlement of the creation promise (the `.then`/`.catch` continuations
attached in `getVDS`):

    .then((server) => { this.instanceVDS = server; return server; })
    .catch((error) => { this.instanceVDS = null; ...; throw error; })

Neither continuation touches `promiseVDS`: on failure only `instanceVDS` is
cleared (it is already `null` at that point) and the rejected promise stays
stored in `promiseVDS`. -/
def settleCreate (s : VDSState) (outcome : Except String Nat) : VDSState :=
  match outcome with
  | .ok server => { s with instanceVDS := some server }
  | .error _ => { s with instanceVDS := none }

/-- How a caller holding a `GetVDSResult` resolves, given the settlement
function of the promises: a caller that got the live instance resolves to it
directly; a caller awaiting a promise observes that promise's settlement. -/
def observe (settle : Nat → Except String Nat) : GetVDSResult → Except String Nat
  | .readyInstance server => .ok server
  | .awaitPromise pid => settle pid
  | .newPromise pid => settle pid

/-- `n` concurrent callers reach `getVDS` before any creation settles; each
caller's synchronous section runs atomically, in arrival order. -/
def processCallers : Nat → VDSState → VDSState × List GetVDSResult
  | 0, s => (s, [])
  | n + 1, s =>
    let p := getVDSStep s
    let q := processCallers n p.1
    (q.1, p.2 :: q.2)

/-- `VDS.shutdownVDS` (src/core/VDS.ts).  `closeFails` is whether the
underlying `instanceVDS.close()` rejects.  The returned `Bool` is whether
`shutdownVDS` itself rethrows to its caller:

    if (!this.instanceVDS) return;
    try { await this.instanceVDS.close(); }
    catch (error) { console.error(...); }
    finally { this.instanceVDS = null; this.promiseVDS = null; }

The `catch` swallows the close error and the `finally` clears both fields
unconditionally; when no live instance exists the method returns at once,
leaving the state (in particular any pending `promiseVDS`) untouched. -/
def shutdownVDS (s : VDSState) (closeFails : Bool) : VDSState × Bool :=
  match s.instanceVDS with
  | none => (s, false)
  | some _ =>
    let _ := closeFails
    ({ s with instanceVDS := none, promiseVDS := none }, false)

/-! ### Lemmas about concurrent first-time callers -/

/-- While a creation is pending (no instance, a stored promise), every
further caller joins that same promise and the state does not change. -/
theorem processCallers_pending (p : Nat) :
    ∀ (m : Nat) (s : VDSState), s.instanceVDS = none → s.promiseVDS = some p →
      processCallers m s = (s, List.replicate m (.awaitPromise p)) := by
  intro m
  induction m with
  | zero => intro s _ _; rfl
  | succ k ih =>
    intro s hi hp
    have hstep : getVDSStep s = (s, .awaitPromise p) := by
      unfold getVDSStep
      rw [hi, hp]
    simp only [processCallers, hstep]
    rw [ih s hi hp]
    rfl

/-- C1: Single-flight creation.  For every sequence of `n ≥ 1` concurrent
first-time callers reaching `getVDS` while the server is uninitialized
(no instance, no pending promise), exactly one underlying `createServer`
call occurs (`createCalls` rises by exactly one), the first caller starts
the creation and every other caller joins the very same promise, and — for
any settlement of the promises — all `n` callers observe the same outcome:
the settlement of that one shared promise (the same instance on success,
the same failure on rejection). -/
theorem getVDS_single_flight (s : VDSState) (n : Nat)
    (hi : s.instanceVDS = none) (hp : s.promiseVDS = none) (hn : 0 < n) :
    (processCallers n s).1.createCalls = s.createCalls + 1 ∧
    (processCallers n s).2 =
      .newPromise s.nextPromiseId ::
        List.replicate (n - 1) (.awaitPromise s.nextPromiseId) ∧
    ∀ settle : Nat → Except String Nat, ∀ r ∈ (processCallers n s).2,
      observe settle r = settle s.nextPromiseId := by
  obtain ⟨k, rfl⟩ : ∃ k, n = k + 1 := ⟨n - 1, (Nat.succ_pred_eq_of_pos hn).symm⟩
  set pid := s.nextPromiseId with hpid
  have hstep : getVDSStep s =
      ({ s with promiseVDS := some pid
                createCalls := s.createCalls + 1
                nextPromiseId := pid + 1 }, .newPromise pid) := by
    unfold getVDSStep
    rw [hi, hp]
  set s' : VDSState :=
    { s with promiseVDS := some pid
             createCalls := s.createCalls + 1
             nextPromiseId := pid + 1 } with hs'
  have hi' : s'.instanceVDS = none := hi
  have hp' : s'.promiseVDS = some pid := rfl
  have hrest := processCallers_pending pid k s' hi' hp'
  have hrun : processCallers (k + 1) s =
      (s', .newPromise pid :: List.replicate k (.awaitPromise pid)) := by
    simp only [processCallers, hstep, hrest]
  refine ⟨?_, ?_, ?_⟩
  · rw [hrun]
  · rw [hrun]
    simp
  · intro settle r hr
    rw [hrun] at hr
    simp only [List.mem_cons, List.eq_of_mem_replicate] at hr
    rcases hr with h | h
    · rw [h]; rfl
    · rw [List.eq_of_mem_replicate h]; rfl

/-- C1 witness: three concurrent first-time callers on a fresh `VDS`. -/
theorem getVDS_single_flight_witness :
    (processCallers 3 vdsInit).1.createCalls = vdsInit.createCalls + 1 ∧
    (processCallers 3 vdsInit).2 =
      .newPromise vdsInit.nextPromiseId ::
        List.replicate 2 (.awaitPromise vdsInit.nextPromiseId) ∧
    ∀ settle : Nat → Except String Nat, ∀ r ∈ (processCallers 3 vdsInit).2,
      observe settle r = settle vdsInit.nextPromiseId :=
  getVDS_single_flight vdsInit 3 rfl rfl (by decide)

/-- C2: evaluation of the code at the failing input.  Starting from a fresh
`VDS`, one caller triggers creation (promise 0) and the creation fails.
The `.catch` continuation clears only `instanceVDS` and leaves `promiseVDS`
holding the rejected promise, so the next caller of `getVDS` takes the
`if (this.promiseVDS)` branch and is handed the same rejected promise 0:
no fresh `createServer` attempt occurs (`createCalls` stays 1) and the
state never returns to uninitialized — contrary to the claim that a
failure resets the state and the next request retries creation. -/
theorem getVDS_failure_poisons :
    (getVDSStep (settleCreate (getVDSStep vdsInit).1 (.error "boom"))).2 =
      .awaitPromise 0 ∧
    (getVDSStep (settleCreate (getVDSStep vdsInit).1 (.error "boom"))).1.promiseVDS =
      some 0 ∧
    (getVDSStep (settleCreate (getVDSStep vdsInit).1 (.error "boom"))).1.createCalls =
      1 := by
  decide

/-- C3: Shutdown idempotence.  For any state and any close outcomes:
`shutdownVDS` never rethrows to its caller; a second `shutdownVDS` with no
intervening instance request is a no-op that returns successfully (the
state after two calls equals the state after one); and when a live
instance exists, one call clears both the instance reference and the
pending-creation reference even when the underlying close fails. -/
theorem shutdownVDS_idempotent (s : VDSState) (b1 b2 : Bool) :
    (shutdownVDS s b1).2 = false ∧
    shutdownVDS (shutdownVDS s b1).1 b2 = ((shutdownVDS s b1).1, false) ∧
    ∀ v : Nat, s.instanceVDS = some v →
      (shutdownVDS s b1).1.instanceVDS = none ∧
      (shutdownVDS s b1).1.promiseVDS = none := by
  cases h : s.instanceVDS with
  | none =>
    refine ⟨by simp [shutdownVDS, h], by simp [shutdownVDS, h], ?_⟩
    intro v hv
    cases hv
  | some v =>
    refine ⟨by simp [shutdownVDS, h], by simp [shutdownVDS, h], ?_⟩
    intro w _
    constructor <;> simp [shutdownVDS, h]

/-- C3 witness: a state with a live instance (id 5) and a stale promise
reference, with the underlying close failing on the first call. -/
theorem shutdownVDS_idempotent_witness :
    (shutdownVDS ⟨some 5, some 0, 1, 1⟩ true).2 = false ∧
    shutdownVDS (shutdownVDS ⟨some 5, some 0, 1, 1⟩ true).1 false =
      ((shutdownVDS ⟨some 5, some 0, 1, 1⟩ true).1, false) ∧
    (shutdownVDS ⟨some 5, some 0, 1, 1⟩ true).1.instanceVDS = none ∧
    (shutdownVDS ⟨some 5, some 0, 1, 1⟩ true).1.promiseVDS = none := by
  have h := shutdownVDS_idempotent ⟨some 5, some 0, 1, 1⟩ true false
  exact ⟨h.1, h.2.1, (h.2.2 5 rfl).1, (h.2.2 5 rfl).2⟩

/-- C4 counterexample: calling `shutdownVDS` while a creation is in flight
(state `Initializing`: one caller has started creation on a fresh `VDS`,
no instance yet) does not prevent a live instance from coming into
existence without any new request.  `shutdownVDS` returns early without
clearing `promiseVDS`, and when the in-flight creation then resolves, its
`.then` continuation installs the live instance (here server 42). -/
theorem shutdownVDS_before_ready_counterexample :
    ¬ (∀ outcome : Except String Nat,
        (settleCreate (shutdownVDS (getVDSStep vdsInit).1 false).1
          outcome).instanceVDS = none) := by
  intro h
  have h42 := h (.ok 42)
  simp [settleCreate, shutdownVDS, getVDSStep, vdsInit] at h42

/-- C4 amended: calling `shutdownVDS` while no live instance exists (which
covers the `Initializing` state) is a no-op that returns successfully —
not an error — but it leaves the pending-creation reference in place, and
if that in-flight creation later resolves successfully, its continuation
installs a live instance without any new request. -/
theorem shutdownVDS_before_ready (s : VDSState) (b : Bool)
    (hi : s.instanceVDS = none) :
    shutdownVDS s b = (s, false) ∧
    ∀ server : Nat, (settleCreate s (.ok server)).instanceVDS = some server := by
  refine ⟨by simp [shutdownVDS, hi], ?_⟩
  intro server
  rfl

/-- C4 witness: shutdown during the in-flight creation started by one
caller on a fresh `VDS`. -/
theorem shutdownVDS_before_ready_witness :
    shutdownVDS (getVDSStep vdsInit).1 false = ((getVDSStep vdsInit).1, false) ∧
    ∀ server : Nat,
      (settleCreate (getVDSStep vdsInit).1 (.ok server)).instanceVDS =
        some server :=
  shutdownVDS_before_ready (getVDSStep vdsInit).1 false rfl

/-! ## Route descriptors and `Controller.register` (src/core/Controller.ts,
src/core/types.ts)

A `Route` is modelled by its registration-relevant data.  `shouldRegisterResult`
is the (awaited) result of the optional `shouldRegister` predicate — `none`
when the predicate is absent.  The endpoint and `errorFn` behaviour is
modelled separately for the error-wrapping property. -/

structure RouteModel where
  method : String
  path : String
  envScope : Option String
  shouldRegisterResult : Option Bool
  hasValidation : Bool
  hasErrorFn : Bool
  deriving Repr, DecidableEq

/-- `Controller.isRequestMethod`:
`["get","post","put","patch","delete","options"].includes(method) && method in Router`
(every one of the six names is a member of an Express `Router`, so the second
conjunct holds exactly on this list). -/
def isRequestMethod (m : String) : Bool :=
  ["get", "post", "put", "patch", "delete", "options"].contains m

/-- The environment-scope skip in `Controller.register`:

    if (envScope && envScope !== process.env.NODE_ENV) continue;

`nodeEnv` is the raw `process.env.NODE_ENV` (`none` = unset).  Note the
comparison is against the raw variable: when it is unset, `envScope !==
undefined` holds for every present scope, so every scoped route is
skipped. -/
def envSkip (envScope : Option String) (nodeEnv : Option String) : Bool :=
  match envScope with
  | none => false
  | some e =>
    match nodeEnv with
    | none => true
    | some v => decide (e ≠ v)

/-- `Controller.register` (src/core/Controller.ts), restricted to its
registration decisions, per route in declaration order:
skip when `shouldRegister` resolved to `false`; skip when the env scope is
present and differs from the raw `NODE_ENV`; raise the configuration error
on an unrecognized method; otherwise bind the route.  Returns the list of
routes actually bound, in order. -/
def registerRoutes (nodeEnv : Option String) :
    List RouteModel → Except String (List RouteModel)
  | [] => .ok []
  | r :: rest =>
    if r.shouldRegisterResult = some false then
      registerRoutes nodeEnv rest
    else if envSkip r.envScope nodeEnv then
      registerRoutes nodeEnv rest
    else if isRequestMethod r.method then
      (registerRoutes nodeEnv rest).map (fun l => r :: l)
    else
      .error ("Method: " ++ r.method ++ " is not recognized as an HTTP method")

/-- `Application.getEnv` (src/core/Application.ts):
`(process.env.NODE_ENV ?? 'development')` — the only place the environment
value is defaulted; it is used for a log line, not for registration. -/
def getEnv (nodeEnv : Option String) : String :=
  nodeEnv.getD "development"

/-- The production descriptor of `CoreController.routesInternal`
(src/core/CoreController.ts): `GET *`, `envScope: 'production'`, static
serving plus SPA fallback, with an `errorFn`. -/
def productionRoute : RouteModel :=
  { method := "get", path := "*", envScope := some "production",
    shouldRegisterResult := none, hasValidation := false, hasErrorFn := true }

/-- The development descriptor of `CoreController.routesInternal`
(src/core/CoreController.ts): `GET *`, `envScope: 'development'`, logging
middleware plus the VDS middleware, no `errorFn`. -/
def developmentRoute : RouteModel :=
  { method := "get", path := "*", envScope := some "development",
    shouldRegisterResult := none, hasValidation := false, hasErrorFn := false }

/-- `CoreController.routesInternal`: exactly the two serving descriptors,
production first. -/
def coreRoutes : List RouteModel := [productionRoute, developmentRoute]

/-- C5 counterexample: with the environment variable unset
(`process.env.NODE_ENV = undefined`), `Controller.register` skips every
env-scoped route (the raw comparison `envScope !== undefined` holds for
both scopes), so NEITHER of `CoreController`'s two descriptors is
registered — in particular the development descriptor is not registered,
contradicting both "exactly one descriptor is registered per run" and
"with the environment variable unset the development descriptor is
registered". -/
theorem coreRoutes_unset_env_counterexample :
    registerRoutes none coreRoutes = .ok [] := by
  rfl

/-- C5 amended: the envScope decision in `Controller.register` compares
against the RAW environment variable, with no defaulting: when it is set
to `production` exactly the production descriptor registers, when set to
`development` exactly the development descriptor registers, and in every
other case (unset, or any other value) neither registers.  The
`development` default does exist (`Application.getEnv`) but is used only
for logging; had it driven registration (i.e. registering under the
defaulted value), the development descriptor would have been registered
when the variable is unset. -/
theorem coreRoutes_env_scoping (e : Option String) :
    registerRoutes e coreRoutes =
      .ok (if e = some "production" then [productionRoute]
           else if e = some "development" then [developmentRoute]
           else []) ∧
    getEnv none = "development" ∧
    registerRoutes (some (getEnv none)) coreRoutes = .ok [developmentRoute] := by
  refine ⟨?_, rfl, rfl⟩
  rcases e with _ | v
  · rfl
  · by_cases hp : v = "production"
    · subst hp; rfl
    · by_cases hd : v = "development"
      · subst hd; rfl
      · have hp' : (some v : Option String) ≠ some "production" := by
          simpa using hp
        have hd' : (some v : Option String) ≠ some "development" := by
          simpa using hd
        rw [if_neg hp', if_neg hd']
        simp only [registerRoutes, coreRoutes, productionRoute, developmentRoute,
          envSkip, isRequestMethod]
        simp [Ne.symm hp, Ne.symm hd]

/-! ## The endpoint error wrapper (src/core/Controller.ts)

`Controller.register` binds each route's endpoint wrapped as

    async (req, res, next) => {
      try { await endpointFn(req, res, next); }
      catch (error) {
        if (errorFn) await errorFn(error, req, res, next);
        next(error);
      }
    }

For a given request, the endpoint's behaviour is its outcome (normal
return or thrown/rejected error) and `errorFn`'s behaviour is a function
from the caught error to its own outcome.  The wrapper's execution is the
list of calls it makes, in order, together with the wrapper promise's own
outcome. -/

inductive WrapperEvent where
  | endpointCalled
  | errorFnCalled (e : String)
  | nextCalled (e : String)
  deriving Repr, DecidableEq

/-- One execution of the wrapped endpoint, line by line: run the endpoint;
on normal return nothing else happens; on a throw/rejection, run `errorFn`
when present, and only if that `await` does not itself throw, call
`next(error)`; an error thrown by `errorFn` escapes the `catch` block, so
`next` is never called and the wrapper's promise rejects with it. -/
def wrapEndpoint (endpointOutcome : Except String Unit)
    (errorFn : Option (String → Except String Unit)) :
    List WrapperEvent × Except String Unit :=
  match endpointOutcome with
  | .ok _ => ([.endpointCalled], .ok ())
  | .error e =>
    match errorFn with
    | none => ([.endpointCalled, .nextCalled e], .ok ())
    | some f =>
      match f e with
      | .ok _ => ([.endpointCalled, .errorFnCalled e, .nextCalled e], .ok ())
      | .error e2 => ([.endpointCalled, .errorFnCalled e], .error e2)

/-- C6 counterexample: an endpoint that rejects with `"boom"`, with an
`onError` hook that itself rejects.  The `await errorFn(...)` throw
escapes the `catch` block before `next(error)` is reached: `next` is never
called (propagation IS suppressed) and the wrapper's promise rejects with
the hook's error instead. -/
theorem endpoint_wrapper_counterexample :
    (wrapEndpoint (.error "boom")
        (some fun e => .error (e ++ "-hook"))).1.contains
      (.nextCalled "boom") = false ∧
    wrapEndpoint (.error "boom") (some fun e => .error (e ++ "-hook")) =
      ([.endpointCalled, .errorFnCalled "boom"], .error "boom-hook") := by
  exact ⟨rfl, rfl⟩

/-- C6 amended: for every request, any synchronous throw or asynchronous
rejection of the endpoint is caught; when `onError` is absent the error is
forwarded to `next(error)`; when `onError` is present it is invoked first
and, provided it completes without throwing, the error is still forwarded
to `next(error)` regardless of what `onError` did; but when `onError`
itself throws or rejects, `next(error)` is not invoked and the wrapper's
promise rejects with `onError`'s error. -/
theorem endpoint_wrapper_error_path (e : String)
    (errorFn : Option (String → Except String Unit)) :
    (errorFn = none →
      wrapEndpoint (.error e) errorFn =
        ([.endpointCalled, .nextCalled e], .ok ())) ∧
    (∀ f, errorFn = some f → f e = .ok () →
      wrapEndpoint (.error e) errorFn =
        ([.endpointCalled, .errorFnCalled e, .nextCalled e], .ok ())) ∧
    (∀ f e2, errorFn = some f → f e = .error e2 →
      wrapEndpoint (.error e) errorFn =
        ([.endpointCalled, .errorFnCalled e], .error e2)) := by
  refine ⟨?_, ?_, ?_⟩
  · intro h; subst h; rfl
  · intro f h hf
    subst h
    simp only [wrapEndpoint, hf]
  · intro f e2 h hf
    subst h
    simp only [wrapEndpoint, hf]

/-- C6 amended witness: a rejecting endpoint with an `onError` hook that
completes normally — the error is still forwarded to `next`. -/
theorem endpoint_wrapper_error_path_witness :
    wrapEndpoint (.error "boom") (some fun _ => .ok ()) =
      ([.endpointCalled, .errorFnCalled "boom", .nextCalled "boom"], .ok ()) :=
  (endpoint_wrapper_error_path "boom" (some fun _ => .ok ())).2.1
    (fun _ => .ok ()) rfl rfl

/-! ## The property store `Service` (src/core/Service.ts)

Properties are a partial map from keys to values (a JS object field is
either present with a value or absent); validators are a partial map from
keys to predicates.  The overridable hooks `onSet` / `onRemove` / `onReset`
are observed as emitted events. -/

abbrev PropKey := String
abbrev PropVal := Nat

structure ServiceState where
  validators : PropKey → Option (PropVal → Bool)
  properties : PropKey → Option PropVal

/-- The `Service` constructor with initial properties and no validators. -/
def serviceInit (initialProps : PropKey → Option PropVal) : ServiceState :=
  { validators := fun _ => none, properties := initialProps }

/-- `this.properties[key] = value`. -/
def updateProp (props : PropKey → Option PropVal) (k : PropKey) (v : PropVal) :
    PropKey → Option PropVal :=
  fun k2 => if k2 = k then some v else props k2

inductive ServiceEvent where
  | onSetEv (k : PropKey) (v : PropVal)
  | onRemoveEv (k : PropKey)
  | onResetEv
  deriving Repr, DecidableEq

/-- `Service.setValue`, line by line:

    if (this.validators[key] && !this.validators[key]!(newValue)) {
        throw new Error(`Validation failed for property '${String(key)}'`);
    }
    this.properties[key] = newValue;
    this.onSet?.(key, newValue);

The throw precedes any mutation, so on validation failure the state is the
pre-call state and no hook event is emitted. -/
def setValue (s : ServiceState) (k : PropKey) (v : PropVal) :
    ServiceState × Except String Unit × List ServiceEvent :=
  match s.validators k with
  | some f =>
    if f v then
      ({ s with properties := updateProp s.properties k v },
       .ok (), [.onSetEv k v])
    else
      (s, .error ("Validation failed for property " ++ k), [])
  | none =>
    ({ s with properties := updateProp s.properties k v },
     .ok (), [.onSetEv k v])

/-- `Service.getValue`: `this.properties[key] ?? null` (`none` = `null`). -/
def getValue (s : ServiceState) (k : PropKey) : Option PropVal :=
  s.properties k

/-- `Service.registerValidator`. -/
def registerValidator (s : ServiceState) (k : PropKey) (f : PropVal → Bool) :
    ServiceState :=
  { s with validators := fun k2 => if k2 = k then some f else s.validators k2 }

/-- `Service.setNewProp`: writes the property and fires `onSet` WITHOUT
consulting any validator. -/
def setNewProp (s : ServiceState) (k : PropKey) (v : PropVal) :
    ServiceState × List ServiceEvent :=
  ({ s with properties := updateProp s.properties k v }, [.onSetEv k v])

/-- `Service.removeProp`: `delete this.properties[key]; this.onRemove?.(key)`. -/
def removeProp (s : ServiceState) (k : PropKey) :
    ServiceState × List ServiceEvent :=
  ({ s with properties := fun k2 => if k2 = k then none else s.properties k2 },
   [.onRemoveEv k])

/-- `Service.resetProps`: `this.properties = { ...defaultProps }; this.onReset?.()`. -/
def resetProps (s : ServiceState) (defaults : PropKey → Option PropVal) :
    ServiceState × List ServiceEvent :=
  ({ s with properties := defaults }, [.onResetEv])

/-- C7: `setValue` atomicity.  For every key with a registered validator:
on a value the validator rejects, `setValue` raises the validation error,
every key afterwards reads its pre-call value (no partial mutation) and no
`onSet` event is emitted; on a value the validator accepts, the value is
stored and the `onSet` hook is invoked. -/
theorem setValue_atomic (s : ServiceState) (k : PropKey) (v : PropVal)
    (f : PropVal → Bool) (hf : s.validators k = some f) :
    (f v = false →
      (setValue s k v).2.1 = .error ("Validation failed for property " ++ k) ∧
      (∀ k2, getValue (setValue s k v).1 k2 = getValue s k2) ∧
      (setValue s k v).2.2 = []) ∧
    (f v = true →
      getValue (setValue s k v).1 k = some v ∧
      (setValue s k v).2.1 = .ok () ∧
      (setValue s k v).2.2 = [.onSetEv k v]) := by
  constructor
  · intro hv
    refine ⟨?_, ?_, ?_⟩ <;> simp [setValue, hf, hv, getValue]
  · intro hv
    refine ⟨?_, ?_, ?_⟩ <;> simp [setValue, hf, hv, getValue, updateProp]

/-- C7 witness: a positivity validator on key `"a"`, rejecting 0 and
accepting 7, starting from a store where `"a"` holds 3. -/
theorem setValue_atomic_witness :
    (let s : ServiceState :=
      registerValidator
        (serviceInit (fun k2 => if k2 = "a" then some 3 else none))
        "a" (fun v => decide (0 < v))
     ((setValue s "a" 0).2.1 = .error ("Validation failed for property " ++ "a") ∧
      (∀ k2, getValue (setValue s "a" 0).1 k2 = getValue s k2) ∧
      (setValue s "a" 0).2.2 = []) ∧
     (getValue (setValue s "a" 7).1 "a" = some 7 ∧
      (setValue s "a" 7).2.1 = .ok () ∧
      (setValue s "a" 7).2.2 = [.onSetEv "a" 7])) := by
  refine ⟨?_, ?_⟩
  · exact (setValue_atomic _ "a" 0 (fun v => decide (0 < v)) rfl).1 rfl
  · exact (setValue_atomic _ "a" 7 (fun v => decide (0 < v)) rfl).2 rfl

/-! ### Sequences of property-store operations (for the validator invariant) -/

/-- One `Service` mutation call, with the data it was called with (for
`registerValidator`, the predicate installed; for `resetProps`, the
defaults). -/
inductive ServiceOp where
  | setValueOp (k : PropKey) (v : PropVal)
  | setNewPropOp (k : PropKey) (v : PropVal)
  | removePropOp (k : PropKey)
  | resetPropsOp (defaults : PropKey → Option PropVal)
  | registerValidatorOp (k : PropKey) (f : PropVal → Bool)

/-- The audit record of one SUCCESSFUL `setValue` write: the key, the value
written, and the validator registered for that key at the time of the
write. -/
structure SetRecord where
  key : PropKey
  val : PropVal
  validatorAtSet : Option (PropVal → Bool)

/-- A `SetRecord` is validated when the key had no validator registered at
the time of the write, or the registered validator accepted the value. -/
def validatedRecord (r : SetRecord) : Prop :=
  r.validatorAtSet = none ∨ ∃ f, r.validatorAtSet = some f ∧ f r.val = true

/-- Execute one operation; the second component logs the successful
`setValue` writes (a failing `setValue` throws before writing; `setNewProp`,
`removeProp` and `resetProps` are not `set` operations and produce no
record). -/
def stepOp (s : ServiceState) (op : ServiceOp) : ServiceState × List SetRecord :=
  match op with
  | .setValueOp k v =>
    match (setValue s k v).2.1 with
    | .ok _ => ((setValue s k v).1, [⟨k, v, s.validators k⟩])
    | .error _ => ((setValue s k v).1, [])
  | .setNewPropOp k v => ((setNewProp s k v).1, [])
  | .removePropOp k => ((removeProp s k).1, [])
  | .resetPropsOp d => ((resetProps s d).1, [])
  | .registerValidatorOp k f => (registerValidator s k f, [])

/-- Execute a sequence of operations, accumulating the audit log. -/
def runOps (s : ServiceState) : List ServiceOp → ServiceState × List SetRecord
  | [] => (s, [])
  | op :: rest =>
    let p := stepOp s op
    let q := runOps p.1 rest
    (q.1, p.2 ++ q.2)

/-- A record produced by one step is validated: `setValue` only reaches its
write when the validator at call time is absent or accepts the value. -/
theorem stepOp_validated (s : ServiceState) (op : ServiceOp) :
    ∀ r ∈ (stepOp s op).2, validatedRecord r := by
  intro r hr
  cases op with
  | setValueOp k v =>
    cases hval : s.validators k with
    | none =>
      simp only [stepOp] at hr
      split at hr
      · simp only [List.mem_singleton] at hr
        subst hr
        exact Or.inl hval
      · cases hr
    | some f =>
      cases hfv : f v with
      | true =>
        simp only [stepOp] at hr
        split at hr
        · simp only [List.mem_singleton] at hr
          subst hr
          exact Or.inr ⟨f, hval, hfv⟩
        · cases hr
      | false =>
        have houtcome : (setValue s k v).2.1 =
            .error ("Validation failed for property " ++ k) := by
          simp [setValue, hval, hfv]
        simp only [stepOp] at hr
        split at hr
        · next h => rw [houtcome] at h; cases h
        · cases hr
  | setNewPropOp k v => cases hr
  | removePropOp k => cases hr
  | resetPropsOp d => cases hr
  | registerValidatorOp k f => cases hr

/-- C8: validator invariant.  After any sequence of property-store
operations (`setValue`, `setNewProp`, `removeProp`, `resetProps`,
`registerValidator`), every key-value pair written by a successful
`setValue` either passed the validator registered for that key at the time
of the write or had no validator registered then. -/
theorem service_validator_invariant (s : ServiceState) (ops : List ServiceOp) :
    ∀ r ∈ (runOps s ops).2, validatedRecord r := by
  induction ops generalizing s with
  | nil => intro r hr; cases hr
  | cons op rest ih =>
    intro r hr
    simp only [runOps, List.mem_append] at hr
    rcases hr with h | h
    · exact stepOp_validated s op r h
    · exact ih (stepOp s op).1 r h

/-- C8 witness: register a positivity validator on `"a"`, then
`setValue "a" 5`; the single record this run logs (it is the head of the
computed audit log) is validated, by the invariant theorem applied to that
concrete run. -/
theorem service_validator_invariant_witness :
    validatedRecord
      ⟨"a", 5,
        (registerValidator (serviceInit fun _ => none) "a"
          (fun v => decide (0 < v))).validators "a"⟩ :=
  service_validator_invariant (serviceInit fun _ => none)
    [.registerValidatorOp "a" (fun v => decide (0 < v)), .setValueOp "a" 5]
    _ (List.Mem.head _)

/-! ## Shutdown sequencing (src/unnamed/part_000 `AppRouter.handleShutdown`,
src/core/VDS.ts constructor)

The observable shutdown behaviour is an ordered trace of events.  Two
pieces of code react to `SIGINT`:

1. the hook the `VDS` constructor installs at construction time,
   `process.on("SIGINT", () => this.shutdownVDS().catch(() => process.exit(1)))`,
   whose synchronous prefix already invokes `instanceVDS.close()` when a
   live instance exists; and
2. the router's handler from `handleShutdown`, registered later (in
   `Application.start`), which guards on `shuttingDown`, calls
   `server.close(cb)`, and in `cb` — which runs only once the listener
   close has completed — exits 1 on a close error, otherwise shuts the VDS
   down (development only) and exits 0, or 1 if that shutdown threw.

Node dispatches signal listeners in registration order, so the VDS hook's
synchronous prefix runs before the router handler even starts. -/

inductive ShutEvent where
  | vdsCloseCall
  | listenerCloseStart
  | listenerCloseDone (ok : Bool)
  | vdsShutdownCall
  | exited (code : Nat)
  deriving Repr, DecidableEq

/-- The events of the router handler produced by `handleShutdown`:

    if (this.shuttingDown) { ...log...; return; }
    this.shuttingDown = true;
    server.close(async (error) => {
      if (error) { ...; process.exit(1); }
      try {
        if (process.env.NODE_ENV === 'development') {
          await this.coreController.getVDS().shutdownVDS();
        }
        process.exit(0);
      } catch (shutdownError) { ...; process.exit(1); }
    });

`closeOk` is whether the listener close completed without error and
`vdsShutdownThrows` whether the awaited `shutdownVDS()` rejected. -/
def routerHandlerTrace (nodeEnv : Option String) (shuttingDown : Bool)
    (closeOk : Bool) (vdsShutdownThrows : Bool) : List ShutEvent :=
  if shuttingDown then []
  else
    .listenerCloseStart :: .listenerCloseDone closeOk ::
      (if closeOk then
        (if nodeEnv = some "development" then
          .vdsShutdownCall ::
            (if vdsShutdownThrows then [.exited 1] else [.exited 0])
        else [.exited 0])
      else [.exited 1])

/-- The synchronous prefix of the `SIGINT` hook installed by the `VDS`
constructor: `shutdownVDS()` is entered at once and, when a live instance
exists, invokes `instanceVDS.close()` before suspending at its `await`. -/
def vdsSigintHookTrace (instanceLive : Bool) : List ShutEvent :=
  if instanceLive then [.vdsCloseCall] else []

/-- The full `SIGINT` dispatch: the `VDS` constructor's hook was registered
first (at `AppRouter`/`CoreController` construction), the router handler
second (in `Application.start`), and this is the first signal
(`shuttingDown = false`). -/
def sigintTrace (nodeEnv : Option String) (instanceLive : Bool)
    (closeOk : Bool) (vdsShutdownThrows : Bool) : List ShutEvent :=
  vdsSigintHookTrace instanceLive ++
    routerHandlerTrace nodeEnv false closeOk vdsShutdownThrows

/-- C9 counterexample: in development with a live dev-server instance, a
`SIGINT` makes the `VDS` constructor's own hook call `instanceVDS.close()`
at trace position 0, before the listener close completes at position 2 —
so the DevAssetServer IS closed before the listener close completes,
contradicting the claimed ordering. -/
theorem shutdown_ordering_counterexample :
    sigintTrace (some "development") true true false =
      [.vdsCloseCall, .listenerCloseStart, .listenerCloseDone true,
       .vdsShutdownCall, .exited 0] ∧
    (sigintTrace (some "development") true true false).findIdx?
        (fun ev => ev == ShutEvent.vdsCloseCall) = some 0 ∧
    (sigintTrace (some "development") true true false).findIdx?
        (fun ev => ev == ShutEvent.listenerCloseDone true) = some 2 := by
  refine ⟨rfl, rfl, rfl⟩

/-- C9 amended: the router's shutdown handler, taken by itself, does order
shutdown as claimed — a repeat signal is a no-op; the listener close is
first and the handler's own `shutdownVDS()` call (made only when the
listener closed successfully and the environment is development) occurs
strictly after the listener close completed; the handler exits 0 on
success and 1 when the listener close or the resource shutdown failed.
But the `VDS` constructor additionally installs its own `SIGINT`/`exit`
hooks, so on a signal the dev server's close can begin before the listener
close completes (see the counterexample). -/
theorem handleShutdown_ordering (nodeEnv : Option String)
    (closeOk vdsShutdownThrows : Bool) :
    routerHandlerTrace nodeEnv true closeOk vdsShutdownThrows = [] ∧
    (routerHandlerTrace nodeEnv false closeOk vdsShutdownThrows).take 2 =
      [.listenerCloseStart, .listenerCloseDone closeOk] ∧
    (routerHandlerTrace nodeEnv false closeOk vdsShutdownThrows).findIdx?
        (fun ev => ev == ShutEvent.listenerCloseDone closeOk) = some 1 ∧
    (routerHandlerTrace nodeEnv false closeOk vdsShutdownThrows).findIdx?
        (fun ev => ev == ShutEvent.vdsShutdownCall) =
      (if closeOk ∧ nodeEnv = some "development" then some 2 else none) ∧
    (routerHandlerTrace nodeEnv false closeOk vdsShutdownThrows).getLast? =
      some (.exited
        (if closeOk ∧ (nodeEnv = some "development" → vdsShutdownThrows = false)
         then 0 else 1)) := by
  by_cases h : nodeEnv = some "development"
  · subst h
    cases closeOk <;> cases vdsShutdownThrows <;>
      refine ⟨rfl, rfl, rfl, ?_, ?_⟩ <;> simp [routerHandlerTrace, List.findIdx?]
  · have h2 : ((nodeEnv = some "development") = False) := by
      simp [h]
    cases closeOk <;> cases vdsShutdownThrows <;>
      refine ⟨rfl, ?_, ?_, ?_, ?_⟩ <;>
        simp [routerHandlerTrace, List.findIdx?, h, h2]

/-! ## `AppRouter.initialize` phases (src/unnamed/part_000)

Each user-supplied controller's `register()` either completes or
throws/rejects; a controller's outcome is an `Except String Unit`.
`registerControllers` runs the whole `for` loop inside ONE `try`, so the
first failing controller aborts the loop; the `catch` logs and swallows the
error, and `initialize` then proceeds with the remaining phases. -/

/-- The `for` loop body of `AppRouter.registerControllers` before its
`catch`: the number of controllers whose `register()` completed, and the
error that aborted the loop, if any. -/
def registerControllersLoop : List (Except String Unit) → Nat × Option String
  | [] => (0, none)
  | .ok _ :: rest =>
    let p := registerControllersLoop rest
    (p.1 + 1, p.2)
  | .error e :: _ => (0, some e)

inductive InitPhase where
  | controllersPhase (registered : Nat)
  | servingPhase
  | viewsPhase (skippedForDev : Bool)
  | fallbackPhase
  deriving Repr, DecidableEq

/-- `AppRouter.initialize`: the four phases run in order regardless of a
controller failure (the per-phase `catch` in `registerControllers` and
`registerServing` swallows it); `registerViews` returns early in
development; `registerFallback` is last. -/
def initPhases (results : List (Except String Unit)) (nodeEnv : Option String) :
    List InitPhase :=
  [.controllersPhase (registerControllersLoop results).1,
   .servingPhase,
   .viewsPhase (nodeEnv == some "development"),
   .fallbackPhase]

/-- A controller whose `register()` threw is at or beyond the number of
controllers the loop completed (the single `try` wraps the whole loop). -/
theorem registerControllersLoop_le (results : List (Except String Unit))
    (i : Nat) (e : String) (hi : results.get? i = some (.error e)) :
    (registerControllersLoop results).1 ≤ i := by
  induction results generalizing i with
  | nil => cases hi
  | cons hd rest ih =>
    cases hd with
    | ok u =>
      cases i with
      | zero => cases hi
      | succ j =>
        have hj : rest.get? j = some (.error e) := hi
        simpa [registerControllersLoop] using
          Nat.succ_le_succ (ih j hj)
    | error e2 =>
      simp [registerControllersLoop]

/-- C10: intra-phase abort during `initialize()`.  If the `i`-th
user-supplied controller's `register()` throws or rejects, then no
controller at or after position `i` is registered (the single per-phase
`catch` wraps the whole loop, which the failure aborts), while the
serving-controller, view, and fallback phases still run afterwards, the
fallback last. -/
theorem initPhases_intra_phase_abort (results : List (Except String Unit))
    (nodeEnv : Option String) (i : Nat) (e : String)
    (hi : results.get? i = some (.error e)) :
    (registerControllersLoop results).1 ≤ i ∧
    (∀ j, i ≤ j → ¬ (j < (registerControllersLoop results).1)) ∧
    InitPhase.servingPhase ∈ initPhases results nodeEnv ∧
    InitPhase.viewsPhase (nodeEnv == some "development") ∈
      initPhases results nodeEnv ∧
    (initPhases results nodeEnv).getLast? = some .fallbackPhase := by
  have hle := registerControllersLoop_le results i e hi
  refine ⟨hle, ?_, ?_, ?_, ?_⟩
  · intro j hij hlt
    exact Nat.not_lt.mpr (le_trans hle hij) hlt
  · simp [initPhases]
  · simp [initPhases]
  · rfl

/-- C10 witness: three controllers where the second one's `register()`
rejects — only the first is registered, the third is not, and the serving,
views and fallback phases still run, fallback last. -/
theorem initPhases_intra_phase_abort_witness :
    (registerControllersLoop [.ok (), .error "boom", .ok ()]).1 ≤ 1 ∧
    (∀ j, 1 ≤ j →
      ¬ (j < (registerControllersLoop [.ok (), .error "boom", .ok ()]).1)) ∧
    InitPhase.servingPhase ∈ initPhases [.ok (), .error "boom", .ok ()] none ∧
    InitPhase.viewsPhase ((none : Option String) == some "development") ∈
      initPhases [.ok (), .error "boom", .ok ()] none ∧
    (initPhases [.ok (), .error "boom", .ok ()] none).getLast? =
      some .fallbackPhase :=
  initPhases_intra_phase_abort [.ok (), .error "boom", .ok ()] none 1 "boom" rfl


/-- C5 amended witness: the registration decisions evaluated at the
concrete environment value `production`, together with the defaulted
value and what registering under it would have given. -/
theorem coreRoutes_env_scoping_witness :
    registerRoutes (some "production") coreRoutes = .ok [productionRoute] ∧
    getEnv none = "development" ∧
    registerRoutes (some (getEnv none)) coreRoutes = .ok [developmentRoute] := by
  have h := coreRoutes_env_scoping (some "production")
  exact ⟨by simpa using h.1, h.2.1, h.2.2⟩

/-- C9 amended witness: the router handler's trace in development with a
successful listener close and a non-throwing resource shutdown. -/
theorem handleShutdown_ordering_witness :
    routerHandlerTrace (some "development") true true false = [] ∧
    (routerHandlerTrace (some "development") false true false).take 2 =
      [.listenerCloseStart, .listenerCloseDone true] ∧
    (routerHandlerTrace (some "development") false true false).findIdx?
        (fun ev => ev == ShutEvent.listenerCloseDone true) = some 1 ∧
    (routerHandlerTrace (some "development") false true false).findIdx?
        (fun ev => ev == ShutEvent.vdsShutdownCall) = some 2 ∧
    (routerHandlerTrace (some "development") false true false).getLast? =
      some (.exited 0) := by
  have h := handleShutdown_ordering (some "development") true false
  refine ⟨h.1, h.2.1, h.2.2.1, ?_, ?_⟩
  · simpa using h.2.2.2.1
  · simpa using h.2.2.2.2

end Movico
